import Mathlib

/-!
Shallow embedding of the pod-lifecycle-go library: the three-flag lifecycle
state, the HTTP probe handlers, the gRPC health-protocol probe, the checker
fan-out, configuration validation, and the coordinator's start/shutdown flow,
together with theorems settling the specification's claims.
-/

namespace PodLifecycle

/-- The three lifecycle flags held by `PodManager` as `atomic.Bool` fields
(`ready`, `started`, `shuttingDown`) and read by the probes through the
`StateReader` interface (`Ready()`, `Started()`, `ShuttingDown()`). -/
structure LifecycleState where
  ready : Bool
  started : Bool
  shuttingDown : Bool
  deriving DecidableEq, Repr

/-- Outcome of one `Checker.Check(ctx)` call: `ok` when the Go method returns
`nil`, `error msg` when it returns an error whose `Error()` is `msg`.  A
checker that misses its deadline surfaces as
`error "context deadline exceeded"`. -/
inductive CheckOutcome where
  | ok
  | error (msg : String)
  deriving DecidableEq, Repr

/-- The checker registry: the Go `map[string]Checker`, with each checker
represented by the outcome of its `Check` call for the request at hand.
Go map keys are unique, so well-formed registries have `Nodup` names. -/
abbrev Registry := List (String × CheckOutcome)

/-- The string recorded per checker by `httpProbe.runCheckers`: `"ok"` on
success, `"error: " + err.Error()` on failure. -/
def checkerResult : CheckOutcome → String
  | .ok => "ok"
  | .error msg => "error: " ++ msg

/-- `httpProbe.runCheckers`: one evaluation per registered checker, each
recorded under its name; the full map is always returned (no early exit). -/
def runCheckers (checkers : Registry) : List (String × String) :=
  checkers.map (fun nc => (nc.1, checkerResult nc.2))

/-- The `allOK` loop in `httpProbe.readyHandler`: pass iff every entry of the
results map equals `"ok"`. -/
def allOK (results : List (String × String)) : Bool :=
  results.all (fun r => r.2 == "ok")

/-- An HTTP probe response: the status code written by `WriteHeader` and the
JSON results map when the handler encodes one (`none` when no body is
written). -/
structure HTTPResponse where
  status : Nat
  body : Option (List (String × String))
  deriving DecidableEq, Repr

/-- `httpProbe.readyHandler`, instrumented: the second component records
whether `runCheckers` was invoked while producing the response. -/
def readyHandlerTraced (state : LifecycleState) (checkers : Registry) :
    HTTPResponse × Bool :=
  if !state.ready || state.shuttingDown then
    (⟨503, none⟩, false)
  else if checkers.length == 0 then
    (⟨200, none⟩, false)
  else
    let results := runCheckers checkers
    (⟨if allOK results then 200 else 503, some results⟩, true)

/-- `httpProbe.readyHandler`: 503 when not ready or shutting down; 200 with no
body when no checkers are registered; otherwise the fan-out result map as a
JSON body with 200 iff all entries are `"ok"`. -/
def readyHandler (state : LifecycleState) (checkers : Registry) : HTTPResponse :=
  (readyHandlerTraced state checkers).1

/-- The `/live` handler: 503 iff `state.ShuttingDown()`, otherwise 200.  It
reads no other flag and consults no checker. -/
def liveHandler (state : LifecycleState) : HTTPResponse :=
  if state.shuttingDown then ⟨503, none⟩ else ⟨200, none⟩

/-- The `/startup` handler: 200 iff `state.Started()`, otherwise 503. -/
def startupHandler (state : LifecycleState) : HTTPResponse :=
  if state.started then ⟨200, none⟩ else ⟨503, none⟩

/-- `onlyGET`: non-GET requests get 405 and the wrapped handler never runs. -/
def onlyGET (method : String) (next : HTTPResponse) : HTTPResponse :=
  if method != "GET" then ⟨405, none⟩ else next

/-- gRPC health-protocol serving status for one service. -/
inductive ServingStatus where
  | serving
  | notServing
  deriving DecidableEq, Repr

/-- The grpc-go `health.Server` as used here: the statuses of the three
registered services (`none` before any `SetServingStatus` for that name) and
the flag set by `health.Server.Shutdown` after which updates are ignored. -/
structure HealthServer where
  ready : Option ServingStatus
  live : Option ServingStatus
  startup : Option ServingStatus
  isShutdown : Bool
  deriving DecidableEq, Repr

/-- `health.NewServer()`: no status set for the three probe services. -/
def newHealthServer : HealthServer :=
  ⟨none, none, none, false⟩

/-- Names of the three services a status can be set for. -/
inductive Service where
  | ready
  | live
  | startup
  deriving DecidableEq, Repr

/-- `health.Server.SetServingStatus`: records the status unless the health
server has been shut down, in which case the update is ignored. -/
def setServingStatus (hs : HealthServer) (svc : Service) (st : ServingStatus) :
    HealthServer :=
  if hs.isShutdown then hs
  else
    match svc with
    | .ready => { hs with ready := some st }
    | .live => { hs with live := some st }
    | .startup => { hs with startup := some st }

/-- `check.applyState`: with `shuttingDown` all three services go
`NOT_SERVING`; otherwise `ready` maps the ready flag and `live` is `SERVING`,
while `startup` is left untouched. -/
def applyState (hs : HealthServer) (ready shuttingDown : Bool) : HealthServer :=
  if shuttingDown then
    let hs := setServingStatus hs .ready .notServing
    let hs := setServingStatus hs .live .notServing
    setServingStatus hs .startup .notServing
  else
    let hs := if ready then setServingStatus hs .ready .serving
              else setServingStatus hs .ready .notServing
    setServingStatus hs .live .serving

/-- The health-server part of `grpcProbe.Start` (and of
`existingGRPCProbe.Start`) after a successful bind: mark `startup` SERVING,
then push the current lifecycle flags through `applyState`. -/
def grpcStart (state : LifecycleState) : HealthServer :=
  applyState (setServingStatus newHealthServer .startup .serving)
    state.ready state.shuttingDown

/-- `grpcProbe.SetState` / `existingGRPCProbe.SetState` on a live health
server: delegate to `applyState`. -/
def grpcSetState (hs : HealthServer) (ready shuttingDown : Bool) : HealthServer :=
  applyState hs ready shuttingDown

/-- `health.Server.Shutdown`: every service that has a recorded status is set
to `NOT_SERVING` and further updates are ignored. -/
def healthServerShutdown (hs : HealthServer) : HealthServer :=
  { ready := hs.ready.map (fun _ => .notServing)
    live := hs.live.map (fun _ => .notServing)
    startup := hs.startup.map (fun _ => .notServing)
    isShutdown := true }

/-- The lifecycle-flag writes performed by `PodManager`: `SetReady` stores
`true` into `ready`; the `onStarted` callback passed to `probe.Start` stores
`true` into `started`; `shutdown` stores `true` into `shuttingDown`.  `probe`
stands for a concurrent probe read, which mutates nothing. -/
inductive Op where
  | setReady
  | markStarted
  | beginShutdown
  | probe
  deriving DecidableEq, Repr

/-- One flag write on the shared state (each Go write is `Store(true)` on its
own `atomic.Bool`; no operation ever stores `false`). -/
def applyOp (s : LifecycleState) : Op → LifecycleState
  | .setReady => { s with ready := true }
  | .markStarted => { s with started := true }
  | .beginShutdown => { s with shuttingDown := true }
  | .probe => s

/-- A serialization of a sequence of lifecycle operations. -/
def applyOps (s : LifecycleState) (ops : List Op) : LifecycleState :=
  ops.foldl applyOp s

/-- The zero state of a freshly constructed `PodManager`. -/
def initialState : LifecycleState :=
  ⟨false, false, false⟩

/-- `config.CheckMechanism`. -/
inductive CheckMechanism where
  | http
  | grpc
  deriving DecidableEq, Repr

/-- `config.Config`: the fields the probes consume.  Ports are Go `int`s, so
they are modelled as `Int`; durations are nanosecond counts.  The two
`Existing*` handles are modelled by their presence. -/
structure Config where
  checkMechanism : CheckMechanism
  httpPort : Int
  grpcPort : Int
  shutdownTimeout : Int
  checkerTimeout : Int
  checkers : Registry
  hasErrorHandler : Bool
  hasExistingGRPCServer : Bool
  hasExistingHTTPMux : Bool
  deriving DecidableEq, Repr

/-- `config.defaultConfig`. -/
def defaultConfig : Config :=
  { checkMechanism := .http
    httpPort := 8080
    grpcPort := 50051
    shutdownTimeout := 5000000000
    checkerTimeout := 2000000000
    checkers := []
    hasErrorHandler := false
    hasExistingGRPCServer := false
    hasExistingHTTPMux := false }

/-- The `With*` functional options offered by the config package. -/
inductive ConfigOption where
  | withCheckMechanism (m : CheckMechanism)
  | withHTTPPort (port : Int)
  | withGRPCPort (port : Int)
  | withShutdownTimeout (d : Int)
  | withCheckerTimeout (d : Int)
  | withChecker (name : String) (c : CheckOutcome)
  | withErrorHandler
  | withExistingGRPCServer
  | withExistingHTTPMux
  deriving DecidableEq, Repr

/-- Go map insertion for the checker registry: `WithChecker` with a name that
is already present overwrites the previous checker (last write wins). -/
def mapInsert (l : Registry) (name : String) (c : CheckOutcome) : Registry :=
  match l with
  | [] => [(name, c)]
  | (k, v) :: rest =>
      if k == name then (name, c) :: rest else (k, v) :: mapInsert rest name c

/-- The mutation each option performs on the config. -/
def applyConfigOption (cfg : Config) : ConfigOption → Config
  | .withCheckMechanism m => { cfg with checkMechanism := m }
  | .withHTTPPort p => { cfg with httpPort := p }
  | .withGRPCPort p => { cfg with grpcPort := p }
  | .withShutdownTimeout d => { cfg with shutdownTimeout := d }
  | .withCheckerTimeout d => { cfg with checkerTimeout := d }
  | .withChecker name c => { cfg with checkers := mapInsert cfg.checkers name c }
  | .withErrorHandler => { cfg with hasErrorHandler := true }
  | .withExistingGRPCServer => { cfg with hasExistingGRPCServer := true }
  | .withExistingHTTPMux => { cfg with hasExistingHTTPMux := true }

/-- The config obtained by folding all options over `defaultConfig` (the
loop at the top of `config.ApplyOptions`). -/
def resolvedConfig (opts : List ConfigOption) : Config :=
  opts.foldl applyConfigOption defaultConfig

/-- `config.ApplyOptions`: fold the options over the defaults, then validate
both ports against `[1, 65535]`, reporting the offending value. -/
def applyOptions (opts : List ConfigOption) : Except String Config :=
  let cfg := resolvedConfig opts
  if cfg.httpPort < 1 || cfg.httpPort > 65535 then
    .error ("invalid HTTPPort " ++ toString cfg.httpPort ++ ": must be in [1, 65535]")
  else if cfg.grpcPort < 1 || cfg.grpcPort > 65535 then
    .error ("invalid GRPCPort " ++ toString cfg.grpcPort ++ ": must be in [1, 65535]")
  else
    .ok cfg

/-- The probe server `config.NewProbe` builds, identified by variant and the
configuration it captures. -/
inductive Probe where
  | existingGRPC
  | existingHTTP (checkerTimeout : Int) (checkers : Registry)
  | grpcStandalone (port : Int) (shutdownTimeout : Int)
  | httpStandalone (port : Int) (shutdownTimeout checkerTimeout : Int)
      (checkers : Registry)
  deriving DecidableEq, Repr

/-- `config.NewProbe`: attached variants take precedence; otherwise the
mechanism selects the standalone server.  The gRPC standalone probe receives
only the port and drain timeout — the registered checkers are not passed
to it. -/
def newProbe (cfg : Config) : Probe :=
  if cfg.hasExistingGRPCServer then .existingGRPC
  else if cfg.hasExistingHTTPMux then .existingHTTP cfg.checkerTimeout cfg.checkers
  else
    match cfg.checkMechanism with
    | .grpc => .grpcStandalone cfg.grpcPort cfg.shutdownTimeout
    | .http => .httpStandalone cfg.httpPort cfg.shutdownTimeout cfg.checkerTimeout
        cfg.checkers

/-- `NewPodManager`: on validation failure the error is returned and no probe
server is built; on success the manager starts with all flags false and holds
the probe built from the validated config. -/
def newPodManager (opts : List ConfigOption) :
    Except String (LifecycleState × Probe) :=
  match applyOptions opts with
  | .error e => .error e
  | .ok cfg => .ok (initialState, newProbe cfg)

/-- Whether the graceful drain of in-flight work finishes before the
coordinator's `shutdownTimeout` context expires. -/
inductive DrainOutcome where
  | finishedInTime
  | deadlineExpired
  deriving DecidableEq, Repr

/-- How `grpcProbe.Shutdown` stops the server: its `select` waits for
`GracefulStop` to complete and, if the context deadline fires first, calls
`srv.Stop()` to force termination. -/
inductive StopAction where
  | graceful
  | forced
  deriving DecidableEq, Repr

/-- `grpcProbe.Shutdown` on a started server: graceful completion when the
drain finishes in time, forced `Stop()` when the deadline expires.  The Go
method has no return value, so no outcome is ever surfaced as an error. -/
def grpcProbeShutdown : DrainOutcome → StopAction
  | .finishedInTime => .graceful
  | .deadlineExpired => .forced

/-- The error value `http.Server.Shutdown(ctx)` produces, which
`httpProbe.Shutdown` discards with `_ = srv.Shutdown(ctx)`. -/
def httpServerShutdownErr : DrainOutcome → Option String
  | .finishedInTime => none
  | .deadlineExpired => some "context deadline exceeded"

/-- Result of the `net.Listen` bind inside `probe.Start`. -/
inductive BindResult where
  | bound
  | bindError (msg : String)
  deriving DecidableEq, Repr

/-- `PodManager.Start` with the standalone gRPC probe: the value Start
returns, and the stop action taken by the shutdown path (`none` when the bind
failed and shutdown never ran).  After a successful bind, Start blocks until
the signal, runs `pm.shutdown()` — whose `probe.Shutdown` returns nothing —
and then returns `nil`. -/
def startGRPC (bind : BindResult) (drain : DrainOutcome) :
    Except String Unit × Option StopAction :=
  match bind with
  | .bindError e => (.error e, none)
  | .bound => (.ok (), some (grpcProbeShutdown drain))

/-- `PodManager.Start` with the standalone HTTP probe: the value Start
returns, and the (discarded) error of `srv.Shutdown` (`none` when the bind
failed and shutdown never ran). -/
def startHTTP (bind : BindResult) (drain : DrainOutcome) :
    Except String Unit × Option (Option String) :=
  match bind with
  | .bindError e => (.error e, none)
  | .bound => (.ok (), some (httpServerShutdownErr drain))

/-- `existingGRPCProbe.Shutdown`: the whole body is `hs.Shutdown()` on the
probe's own health server; the Bool records whether any `Stop`/`GracefulStop`
of the caller's `grpc.Server` is invoked — the body contains no such call. -/
def existingGRPCShutdown (hs : HealthServer) : HealthServer × Bool :=
  (healthServerShutdown hs, false)

/-- `existingHTTPProbe.Shutdown`: an empty body; the Bool records whether any
stop/close of the caller's mux or server is invoked — there is none. -/
def existingHTTPShutdownStopsTransport : Bool := false

/-- The coordinator's `pm.shutdown()` in attached-gRPC mode: store `true`
into `shuttingDown`, push the flags into the health server via `SetState`,
then run `existingGRPCProbe.Shutdown`.  Returns the lifecycle state, the
health server, and whether the caller's transport was stopped. -/
def shutdownExistingGRPC (s : LifecycleState) (hs : HealthServer) :
    LifecycleState × HealthServer × Bool :=
  let s1 := applyOp s .beginShutdown
  let hs1 := grpcSetState hs s1.ready s1.shuttingDown
  let r := existingGRPCShutdown hs1
  (s1, r.1, r.2)

/-- The coordinator's `pm.shutdown()` in attached-HTTP mode: store `true`
into `shuttingDown` (`SetState` is a no-op for HTTP probes, which read the
state per request) and run the empty `existingHTTPProbe.Shutdown`. -/
def shutdownExistingHTTP (s : LifecycleState) : LifecycleState × Bool :=
  (applyOp s .beginShutdown, existingHTTPShutdownStopsTransport)

/-! Helper lemmas shared by the claim theorems. -/

theorem applyOp_started_mono (s : LifecycleState) (o : Op) (h : s.started = true) :
    (applyOp s o).started = true := by
  cases o <;> simp [applyOp, h]

theorem applyOp_shuttingDown_mono (s : LifecycleState) (o : Op)
    (h : s.shuttingDown = true) : (applyOp s o).shuttingDown = true := by
  cases o <;> simp [applyOp, h]

theorem applyOps_started_mono (ops : List Op) (s : LifecycleState)
    (h : s.started = true) : (applyOps s ops).started = true := by
  induction ops generalizing s with
  | nil => simpa [applyOps] using h
  | cons o rest ih =>
      simpa [applyOps, List.foldl_cons] using ih (applyOp s o) (applyOp_started_mono s o h)

theorem applyOps_shuttingDown_mono (ops : List Op) (s : LifecycleState)
    (h : s.shuttingDown = true) : (applyOps s ops).shuttingDown = true := by
  induction ops generalizing s with
  | nil => simpa [applyOps] using h
  | cons o rest ih =>
      simpa [applyOps, List.foldl_cons]
        using ih (applyOp s o) (applyOp_shuttingDown_mono s o h)

theorem applyOp_idem (s : LifecycleState) (o : Op) :
    applyOp (applyOp s o) o = applyOp s o := by
  cases o <;> simp [applyOp]

theorem applyOp_started_eq (s : LifecycleState) :
    (applyOp s .beginShutdown).started = s.started := by
  simp [applyOp]

theorem allOK_iff (results : List (String × String)) :
    allOK results = true ↔ ∀ e ∈ results, e.2 = "ok" := by
  simp [allOK, List.all_eq_true]

/-! Claim theorems. -/

/-- Claim C2 (confirmed): the liveness answer is "not alive" iff
`shuttingDown`, under both bindings: the HTTP `/live` handler returns 503 iff
`shuttingDown` and its answer depends on no other flag, and `applyState`
pushes `NOT_SERVING` for the `live` service iff `shuttingDown`.  The handlers
take no checker registry at all, so no checker outcome can influence them. -/
theorem C2_liveness_iff_not_shuttingDown (s t : LifecycleState)
    (hs : HealthServer) (hlive : hs.isShutdown = false) :
    ((liveHandler s).status = 503 ↔ s.shuttingDown = true) ∧
    (s.shuttingDown = t.shuttingDown → liveHandler s = liveHandler t) ∧
    ((grpcSetState hs s.ready s.shuttingDown).live = some .notServing ↔
      s.shuttingDown = true) ∧
    ((grpcSetState hs s.ready s.shuttingDown).live = some .serving ↔
      s.shuttingDown = false) := by
  obtain ⟨r, st, sd⟩ := s
  cases sd <;> cases r <;>
    simp [liveHandler, grpcSetState, applyState, setServingStatus, hlive] <;>
    · intro h
      obtain ⟨r2, st2, sd2⟩ := t
      simp_all [liveHandler]

/-- Claim C2 witness: concrete evaluation at a shutting-down state. -/
theorem C2_liveness_witness :
    (liveHandler ⟨true, true, true⟩).status = 503 ∧
    (grpcSetState newHealthServer true true).live = some .notServing :=
  ⟨(C2_liveness_iff_not_shuttingDown ⟨true, true, true⟩ ⟨true, true, true⟩
      newHealthServer rfl).1.mpr rfl,
   (C2_liveness_iff_not_shuttingDown ⟨true, true, true⟩ ⟨true, true, true⟩
      newHealthServer rfl).2.2.1.mpr rfl⟩

/-- Claim C5 (confirmed): with zero registered checkers, whenever `ready` is
true and `shuttingDown` is false the readiness handler returns 200 with no
body written. -/
theorem C5_zero_checkers_ready (s : LifecycleState) (hr : s.ready = true)
    (hsd : s.shuttingDown = false) :
    readyHandler s [] = ⟨200, none⟩ := by
  simp [readyHandler, readyHandlerTraced, hr, hsd]

/-- Claim C5 witness: concrete evaluation. -/
theorem C5_zero_checkers_ready_witness :
    readyHandler ⟨true, true, false⟩ [] = ⟨200, none⟩ :=
  C5_zero_checkers_ready ⟨true, true, false⟩ rfl rfl

/-- Claim C8 (confirmed): after a successful bind, `Start` returns `nil`
(`.ok`) for both standalone probes whatever the drain outcome; the gRPC
shutdown takes the forced `Stop()` exactly when the drain deadline expires,
and the HTTP probe discards the drain error — neither is propagated. -/
theorem C8_drain_timeout_not_an_error (drain : DrainOutcome) :
    (startGRPC .bound drain).1 = .ok () ∧
    ((startGRPC .bound drain).2 = some .forced ↔ drain = .deadlineExpired) ∧
    (startHTTP .bound drain).1 = .ok () := by
  cases drain <;> simp [startGRPC, startHTTP, grpcProbeShutdown, httpServerShutdownErr]

/-- Claim C9 (confirmed): over every serialization of lifecycle operations,
`started` and `shuttingDown` never revert to false once true, and every
operation is idempotent. -/
theorem C9_flags_monotonic_idempotent (s : LifecycleState) (ops : List Op) :
    (s.started = true → (applyOps s ops).started = true) ∧
    (s.shuttingDown = true → (applyOps s ops).shuttingDown = true) ∧
    (∀ o, applyOp (applyOp s o) o = applyOp s o) :=
  ⟨applyOps_started_mono ops s, applyOps_shuttingDown_mono ops s, applyOp_idem s⟩

/-- Claim C9 witness: concrete run preserving both flags, and idempotence of
a concrete operation. -/
theorem C9_flags_monotonic_idempotent_witness :
    (applyOps ⟨false, true, true⟩ [Op.setReady, Op.probe, Op.beginShutdown]).started = true ∧
    (applyOps ⟨false, true, true⟩ [Op.setReady, Op.probe, Op.beginShutdown]).shuttingDown = true ∧
    applyOp (applyOp ⟨false, true, true⟩ Op.setReady) Op.setReady =
      applyOp ⟨false, true, true⟩ Op.setReady :=
  ⟨(C9_flags_monotonic_idempotent ⟨false, true, true⟩
      [Op.setReady, Op.probe, Op.beginShutdown]).1 rfl,
   (C9_flags_monotonic_idempotent ⟨false, true, true⟩
      [Op.setReady, Op.probe, Op.beginShutdown]).2.1 rfl,
   (C9_flags_monotonic_idempotent ⟨false, true, true⟩
      [Op.setReady, Op.probe, Op.beginShutdown]).2.2 Op.setReady⟩

/-- Claim C10 (confirmed): when `ready` is false or `shuttingDown` is true,
the readiness handler answers 503 with no body and `runCheckers` is never
invoked, whatever the registry holds. -/
theorem C10_gate_short_circuits_checkers (s : LifecycleState)
    (checkers : Registry) (h : s.ready = false ∨ s.shuttingDown = true) :
    readyHandlerTraced s checkers = (⟨503, none⟩, false) := by
  rcases h with h | h <;> simp [readyHandlerTraced, h]

/-- Claim C10 witness: concrete evaluation with a registered checker. -/
theorem C10_gate_short_circuits_checkers_witness :
    readyHandlerTraced ⟨false, true, false⟩ [("db", .ok)] = (⟨503, none⟩, false) :=
  C10_gate_short_circuits_checkers ⟨false, true, false⟩ [("db", .ok)] (Or.inl rfl)

/-- Claim C1 counterexample: with the gRPC binding, `ready=true`,
`shuttingDown=false` and the single registered checker `db` failing, the
pushed `ready` service status is SERVING although not every registered
checker reports ok, so the claimed biconditional fails at this input;
`newProbe` on the corresponding config shows the gRPC probe is built without
the checker registry. -/
theorem C1_readiness_counterexample :
    ¬ (((grpcSetState (grpcStart ⟨true, true, false⟩) true false).ready =
          some ServingStatus.serving) ↔
        ((⟨true, true, false⟩ : LifecycleState).ready = true ∧
          (⟨true, true, false⟩ : LifecycleState).shuttingDown = false ∧
          allOK (runCheckers [("db", CheckOutcome.error "boom")]) = true)) ∧
    newProbe (resolvedConfig [ConfigOption.withCheckMechanism CheckMechanism.grpc,
        ConfigOption.withChecker "db" (CheckOutcome.error "boom")]) =
      Probe.grpcStandalone 50051 5000000000 := by
  constructor
  · simp [grpcSetState, grpcStart, applyState, setServingStatus, newHealthServer,
      allOK, runCheckers, checkerResult]
  · rfl

/-- Claim C1 (corrected): under the HTTP binding the readiness answer is 200
iff `ready` ∧ ¬`shuttingDown` ∧ every fan-out entry is `"ok"`; under the gRPC
health-protocol binding the pushed `ready` service status is SERVING iff
`ready` ∧ ¬`shuttingDown` — the gRPC probe is constructed without the checker
registry, so checker outcomes play no part in its answer. -/
theorem C1_readiness_verdict (s : LifecycleState) (checkers : Registry)
    (hs : HealthServer) (hlive : hs.isShutdown = false) :
    ((readyHandler s checkers).status = 200 ↔
      s.ready = true ∧ s.shuttingDown = false ∧
        allOK (runCheckers checkers) = true) ∧
    ((grpcSetState hs s.ready s.shuttingDown).ready = some .serving ↔
      s.ready = true ∧ s.shuttingDown = false) := by
  obtain ⟨r, st, sd⟩ := s
  constructor
  · cases r with
    | false => cases sd <;> simp [readyHandler, readyHandlerTraced]
    | true =>
      cases sd with
      | true => simp [readyHandler, readyHandlerTraced]
      | false =>
        cases checkers with
        | nil => simp [readyHandler, readyHandlerTraced, runCheckers, allOK]
        | cons c cs =>
          by_cases hall : allOK (runCheckers (c :: cs)) = true
          · simp [readyHandler, readyHandlerTraced, hall]
          · rw [Bool.not_eq_true] at hall
            simp [readyHandler, readyHandlerTraced, hall]
  · cases r <;> cases sd <;>
      simp [grpcSetState, applyState, setServingStatus, hlive]

/-- Claim C1 witness: concrete evaluation with two passing checkers. -/
theorem C1_readiness_verdict_witness :
    (readyHandler ⟨true, true, false⟩ [("db", .ok), ("cache", .ok)]).status = 200 ∧
    (grpcSetState newHealthServer true false).ready = some .serving :=
  ⟨(C1_readiness_verdict ⟨true, true, false⟩ [("db", .ok), ("cache", .ok)]
      newHealthServer rfl).1.mpr ⟨rfl, rfl, rfl⟩,
   (C1_readiness_verdict ⟨true, true, false⟩ [("db", .ok), ("cache", .ok)]
      newHealthServer rfl).2.mpr ⟨rfl, rfl⟩⟩

/-- Claim C3 (confirmed): the fan-out returns exactly one entry per
registered name — `"ok"` on success, `"error: <message>"` on failure, no
entry ever dropped — and, once the ready/shuttingDown gate passes, the
readiness verdict is fail iff at least one entry is not `"ok"`. -/
theorem C3_fanout_total (checkers : Registry) (s : LifecycleState)
    (hnd : (checkers.map Prod.fst).Nodup) (hr : s.ready = true)
    (hsd : s.shuttingDown = false) :
    (runCheckers checkers).length = checkers.length ∧
    ((runCheckers checkers).map Prod.fst).Nodup ∧
    (∀ name c, (name, c) ∈ checkers →
      (name, checkerResult c) ∈ runCheckers checkers) ∧
    (∀ name msg, (name, CheckOutcome.error msg) ∈ checkers →
      (name, "error: " ++ msg) ∈ runCheckers checkers) ∧
    ((readyHandler s checkers).status = 503 ↔
      ∃ e ∈ runCheckers checkers, e.2 ≠ "ok") := by
  refine ⟨by simp [runCheckers], ?_, ?_, ?_, ?_⟩
  · simpa [runCheckers, List.map_map, Function.comp] using hnd
  · intro name c hmem
    exact List.mem_map.mpr ⟨(name, c), hmem, rfl⟩
  · intro name msg hmem
    exact List.mem_map.mpr ⟨(name, CheckOutcome.error msg), hmem, rfl⟩
  · cases checkers with
    | nil => simp [readyHandler, readyHandlerTraced, hr, hsd, runCheckers]
    | cons c cs =>
      have hstat : (readyHandler s (c :: cs)).status =
          if allOK (runCheckers (c :: cs)) then 200 else 503 := by
        simp [readyHandler, readyHandlerTraced, hr, hsd]
      rw [hstat]
      by_cases hall : allOK (runCheckers (c :: cs)) = true
      · rw [if_pos hall]
        have h2 := (allOK_iff (runCheckers (c :: cs))).mp hall
        simp only [show ((200 : Nat) = 503) = False by simp, false_iff]
        push_neg
        exact h2
      · rw [if_neg (by simpa using hall)]
        have h2 : ¬ ∀ e ∈ runCheckers (c :: cs), e.2 = "ok" :=
          fun hforall => hall ((allOK_iff (runCheckers (c :: cs))).mpr hforall)
        push_neg at h2
        simpa using h2

/-- Claim C3 witness: the two-checker scenario `{db: ok, cache: error boom}`
from the spec. -/
theorem C3_fanout_total_witness :
    (runCheckers [("db", CheckOutcome.ok), ("cache", CheckOutcome.error "boom")]).length =
      ([("db", CheckOutcome.ok), ("cache", CheckOutcome.error "boom")] : Registry).length ∧
    ((readyHandler ⟨true, true, false⟩
        [("db", CheckOutcome.ok), ("cache", CheckOutcome.error "boom")]).status = 503 ↔
      ∃ e ∈ runCheckers [("db", CheckOutcome.ok), ("cache", CheckOutcome.error "boom")],
        e.2 ≠ "ok") :=
  ⟨(C3_fanout_total [("db", .ok), ("cache", .error "boom")] ⟨true, true, false⟩
      (by simp) rfl rfl).1,
   (C3_fanout_total [("db", .ok), ("cache", .error "boom")] ⟨true, true, false⟩
      (by simp) rfl rfl).2.2.2.2⟩

/-- Claim C4 counterexample: under the gRPC binding, from the started, ready
state the startup service answers SERVING, but pushing `shuttingDown=true`
(as `PodManager.shutdown` does through `SetState`) flips it to NOT_SERVING —
the startup answer is not unchanged by shutdown. -/
theorem C4_startup_counterexample :
    ¬ ((grpcSetState (grpcStart ⟨true, true, false⟩) true true).startup =
        (grpcStart ⟨true, true, false⟩).startup) ∧
    (grpcStart ⟨true, true, false⟩).startup = some ServingStatus.serving ∧
    (grpcSetState (grpcStart ⟨true, true, false⟩) true true).startup =
      some ServingStatus.notServing := by
  refine ⟨?_, rfl, rfl⟩
  simp [grpcSetState, grpcStart, applyState, setServingStatus, newHealthServer]

/-- Claim C4 (corrected): when shutdown is triggered from a started,
non-shutting-down state, the HTTP startup answer is unchanged (still 200)
while the HTTP readiness and liveness answers flip to 503; under the gRPC
binding the push of `shuttingDown=true` sets all three services — startup
included — to NOT_SERVING. -/
theorem C4_startup_after_shutdown (s : LifecycleState) (checkers : Registry)
    (hst : s.started = true) (hsd : s.shuttingDown = false) :
    startupHandler (applyOp s .beginShutdown) = startupHandler s ∧
    (startupHandler (applyOp s .beginShutdown)).status = 200 ∧
    (readyHandler (applyOp s .beginShutdown) checkers).status = 503 ∧
    (liveHandler (applyOp s .beginShutdown)).status = 503 ∧
    (grpcSetState (grpcStart s) s.ready true).ready = some .notServing ∧
    (grpcSetState (grpcStart s) s.ready true).live = some .notServing ∧
    (grpcSetState (grpcStart s) s.ready true).startup = some .notServing := by
  obtain ⟨r, st, sd⟩ := s
  simp only at hst hsd
  subst hst hsd
  cases r <;>
    simp [startupHandler, applyOp, readyHandler, readyHandlerTraced, liveHandler,
      grpcSetState, grpcStart, applyState, setServingStatus, newHealthServer]

/-- Claim C4 witness: concrete evaluation at the started, ready state. -/
theorem C4_startup_after_shutdown_witness :
    (startupHandler (applyOp ⟨true, true, false⟩ Op.beginShutdown)).status = 200 ∧
    (grpcSetState (grpcStart ⟨true, true, false⟩) true true).startup =
      some ServingStatus.notServing :=
  ⟨(C4_startup_after_shutdown ⟨true, true, false⟩ [] rfl rfl).2.1,
   (C4_startup_after_shutdown ⟨true, true, false⟩ [] rfl rfl).2.2.2.2.2.2⟩

/-- Claim C6 (confirmed): whenever the resolved HTTP or gRPC port lies
outside `[1, 65535]`, `NewPodManager` fails synchronously with one of the two
descriptive port errors and builds no probe; whenever both ports are in
range, construction succeeds with the probe built from the resolved
config. -/
theorem C6_port_validation (opts : List ConfigOption) :
    (¬ (1 ≤ (resolvedConfig opts).httpPort ∧ (resolvedConfig opts).httpPort ≤ 65535 ∧
        1 ≤ (resolvedConfig opts).grpcPort ∧ (resolvedConfig opts).grpcPort ≤ 65535) →
      newPodManager opts = .error ("invalid HTTPPort " ++
          toString (resolvedConfig opts).httpPort ++ ": must be in [1, 65535]") ∨
      newPodManager opts = .error ("invalid GRPCPort " ++
          toString (resolvedConfig opts).grpcPort ++ ": must be in [1, 65535]")) ∧
    ((1 ≤ (resolvedConfig opts).httpPort ∧ (resolvedConfig opts).httpPort ≤ 65535 ∧
        1 ≤ (resolvedConfig opts).grpcPort ∧ (resolvedConfig opts).grpcPort ≤ 65535) →
      newPodManager opts = .ok (initialState, newProbe (resolvedConfig opts))) := by
  constructor
  · intro h
    by_cases h1 : (resolvedConfig opts).httpPort < 1 ∨ 65535 < (resolvedConfig opts).httpPort
    · left
      rcases h1 with h1 | h1 <;> simp [newPodManager, applyOptions, h1]
    · right
      push_neg at h1
      have h2 : (resolvedConfig opts).grpcPort < 1 ∨ 65535 < (resolvedConfig opts).grpcPort := by
        by_contra hc
        push_neg at hc
        exact h ⟨h1.1, h1.2, hc.1, hc.2⟩
      have hh1 : ¬ (resolvedConfig opts).httpPort < 1 := by omega
      have hh2 : ¬ (resolvedConfig opts).httpPort > 65535 := by omega
      rcases h2 with h2 | h2 <;> simp [newPodManager, applyOptions, hh1, hh2, h2]
  · intro h
    have hh1 : ¬ (resolvedConfig opts).httpPort < 1 := by omega
    have hh2 : ¬ (resolvedConfig opts).httpPort > 65535 := by omega
    have hg1 : ¬ (resolvedConfig opts).grpcPort < 1 := by omega
    have hg2 : ¬ (resolvedConfig opts).grpcPort > 65535 := by omega
    simp [newPodManager, applyOptions, hh1, hh2, hg1, hg2]

/-- Claim C6 witness: port 70000 fails construction with the descriptive
error; the default options succeed. -/
theorem C6_port_validation_witness :
    (newPodManager [ConfigOption.withHTTPPort 70000] =
        .error ("invalid HTTPPort " ++
          toString (resolvedConfig [ConfigOption.withHTTPPort 70000]).httpPort ++
          ": must be in [1, 65535]") ∨
      newPodManager [ConfigOption.withHTTPPort 70000] =
        .error ("invalid GRPCPort " ++
          toString (resolvedConfig [ConfigOption.withHTTPPort 70000]).grpcPort ++
          ": must be in [1, 65535]")) ∧
    newPodManager [] = .ok (initialState, newProbe (resolvedConfig [])) :=
  ⟨(C6_port_validation [ConfigOption.withHTTPPort 70000]).1 (by decide),
   (C6_port_validation []).2 (by decide)⟩

/-- Claim C7 (confirmed): in attached mode the coordinator's shutdown drives
the probe answers to their "not serving" values — every gRPC health status
goes NOT_SERVING, and the per-request HTTP ready and live answers become
503 — while the recorded transport-stop effect is false for both attached
variants: the caller's server or mux is never stopped. -/
theorem C7_attached_shutdown_frame (s0 s : LifecycleState) (checkers : Registry) :
    (shutdownExistingGRPC s (grpcStart s0)).2.2 = false ∧
    (shutdownExistingGRPC s (grpcStart s0)).2.1.ready = some .notServing ∧
    (shutdownExistingGRPC s (grpcStart s0)).2.1.live = some .notServing ∧
    (shutdownExistingGRPC s (grpcStart s0)).2.1.startup = some .notServing ∧
    (shutdownExistingHTTP s).2 = false ∧
    (readyHandler (shutdownExistingHTTP s).1 checkers).status = 503 ∧
    (liveHandler (shutdownExistingHTTP s).1).status = 503 := by
  obtain ⟨r0, st0, sd0⟩ := s0
  cases r0 <;> cases sd0 <;>
    simp [shutdownExistingGRPC, shutdownExistingHTTP, existingGRPCShutdown,
      existingHTTPShutdownStopsTransport, healthServerShutdown, grpcSetState,
      grpcStart, applyState, setServingStatus, newHealthServer, applyOp,
      readyHandler, readyHandlerTraced, liveHandler]

end PodLifecycle
